import Mathlib

/-!
Shallow embedding of the document-generation tools of this repository
(generate_docx.py, generate_pptx.py, src/generate_docx.py, src/generate_excel.py).

Python strings are modelled as Lean `String`; machine-independent Python
string primitives (`str.split`, `str.strip` truthiness, slicing, `*`
repetition) are re-implemented below on `List Char` so that every
definition is executable and kernel-reducible.  `dict.get(k, d)` on the
JSON input is modelled with `Option` fields (`none` = key absent) and
`Option.getD` / an explicit default-choosing function.  A Python function
that can raise is modelled as returning `Except String α`, the `.error`
constructor carrying the exception message; external collaborators
(template open, file save, upload/storage) are passed in as `Except`-valued
parameters since they are black boxes outside this repository.
-/

/-- Python `str.isspace`-style test for the ASCII whitespace characters that
`str.strip()` removes (space, tab, newline, carriage return, vertical tab,
form feed).  Exotic Unicode whitespace is not modelled; no input in this
development uses it. -/
def pyIsSpace (c : Char) : Bool :=
  c = ' ' || c = '\t' || c = '\n' || c = '\r' || c = '\x0b' || c = '\x0c'

/-- Python truthiness of `s.strip()` being empty: `not s.strip()` holds
exactly when every character of `s` is whitespace. -/
def pyStripEmpty (s : String) : Bool :=
  s.data.all pyIsSpace

/-- Python truthiness of an optional string field: `None` and `""` are
falsy, any other string is truthy. -/
def pyTruthy (o : Option String) : Bool :=
  match o with
  | none => false
  | some s => !s.isEmpty

/-- Splitting a character list at newline characters, the semantics of
Python `content.split("\n")`: the empty string yields one empty chunk, a
trailing newline yields a trailing empty chunk. -/
def splitNl : List Char → List (List Char)
  | [] => [[]]
  | '\n' :: rest => [] :: splitNl rest
  | c :: rest =>
    match splitNl rest with
    | chunk :: more => (c :: chunk) :: more
    | [] => [[c]]

/-- Python `content.split("\n")` on strings. -/
def pySplitLines (s : String) : List String :=
  (splitNl s.data).map String.mk

/-- Python string repetition `s * n`. -/
def pyRep (s : String) (n : Nat) : String :=
  String.mk ((List.replicate n s.data).flatten)

/-- Python slicing `s[:n]` (first `n` characters). -/
def pyTake (n : Nat) (s : String) : String :=
  String.mk (s.data.take n)

/-- `dict.get(key, default)` where the fallback is itself optional (used
for the cover-page fields, whose defaults are the request-level fields). -/
def pyGetOr (field fallback : Option String) : Option String :=
  match field with
  | some v => some v
  | none => fallback

/-- Python `d[key]` subscripting on an optional field: raises `KeyError`
when the key is absent. -/
def pyGetKey (o : Option String) (k : String) : Except String String :=
  match o with
  | some v => Except.ok v
  | none => Except.error ("KeyError: " ++ k)

/-! ## The Indentation-Bullet Parser

Both generators contain the identical inline loop
(`generate_docx.py` lines 322-331, `generate_pptx.py` lines 265-275):

    level = 0
    while line.startswith("    "):
        line = line[4:]
        level += 1
    if line.startswith("* ") or line.startswith("• "):
        line = line[2:]
        is_bullet = True
-/

/-- The `while line.startswith("    ")` loop: strips complete leading
4-space units, counting them. -/
def stripIndentUnits : List Char → List Char × Nat
  | ' ' :: ' ' :: ' ' :: ' ' :: rest =>
    let r := stripIndentUnits rest
    (r.1, r.2 + 1)
  | cs => (cs, 0)

/-- A parsed line record: nesting level, bullet flag, remaining text. -/
structure ParsedLine where
  level : Nat
  isBullet : Bool
  text : String
deriving DecidableEq, Repr

/-- One iteration of the shared bullet/indentation parsing loop body. -/
def parseLine (line : String) : ParsedLine :=
  let r := stripIndentUnits line.data
  match r.1, r.2 with
  | '*' :: ' ' :: rest, lvl => { level := lvl, isBullet := true, text := String.mk rest }
  | '•' :: ' ' :: rest, lvl => { level := lvl, isBullet := true, text := String.mk rest }
  | cs, lvl => { level := lvl, isBullet := false, text := String.mk cs }

/-- Number of leading space characters of a line (its maximal prefix of
spaces), the quantity the specification calls `leading_spaces`. -/
def spaceCount (cs : List Char) : Nat :=
  (cs.takeWhile fun c => c = ' ').length

/-- The characters remaining after the `while`-loop has stripped every
complete leading 4-space unit. -/
def dedent (s : String) : List Char :=
  s.data.drop (4 * (spaceCount s.data / 4))

/-- Whether a (dedented) line begins with one of the two literal bullet
markers recognised by the generators. -/
def bulletMarker (cs : List Char) : Bool :=
  cs.take 2 = ['*', ' '] || cs.take 2 = ['•', ' ']

lemma spaceCount_lt_four {cs : List Char}
    (h : ∀ rest, cs = ' ' :: ' ' :: ' ' :: ' ' :: rest → False) : spaceCount cs < 4 := by
  rcases cs with _ | ⟨a, _ | ⟨b, _ | ⟨c, _ | ⟨d, l⟩⟩⟩⟩ <;>
    simp [spaceCount, List.takeWhile_cons] <;> split_ifs <;> simp_all

/-- The 4-space stripping loop strips exactly `floor(leading_spaces / 4)`
units and leaves the corresponding suffix of the line. -/
lemma stripIndentUnits_eq (cs : List Char) :
    stripIndentUnits cs = (cs.drop (4 * (spaceCount cs / 4)), spaceCount cs / 4) := by
  induction cs using stripIndentUnits.induct with
  | case1 rest ih =>
    have hsc : spaceCount (' ' :: ' ' :: ' ' :: ' ' :: rest) = spaceCount rest + 4 := by
      simp [spaceCount, List.takeWhile_cons]
    rw [hsc]
    have hdiv : (spaceCount rest + 4) / 4 = spaceCount rest / 4 + 1 :=
      Nat.add_div_right _ (by omega)
    rw [hdiv]
    have hmul : 4 * (spaceCount rest / 4 + 1) = (4 * (spaceCount rest / 4)) + 4 := by ring
    have hdrop : List.drop (4 * (spaceCount rest / 4 + 1)) (' ' :: ' ' :: ' ' :: ' ' :: rest)
        = List.drop (4 * (spaceCount rest / 4)) rest := by
      rw [hmul]; rfl
    rw [hdrop]
    simp [stripIndentUnits, ih]
  | case2 cs h =>
    have h4 := spaceCount_lt_four h
    have h0 : spaceCount cs / 4 = 0 := Nat.div_eq_of_lt h4
    rw [h0]
    rw [stripIndentUnits.eq_def]
    split
    case _ rest => exact absurd rfl (fun hh => h rest hh)
    case _ => simp

/-- Closed form of the shared line parser: level is always
`floor(leading_spaces / 4)`; the bullet flag and the 2-character strip are
decided on the dedented text. -/
lemma parseLine_spec (s : String) :
    parseLine s =
      if bulletMarker (dedent s)
      then { level := spaceCount s.data / 4, isBullet := true,
             text := String.mk ((dedent s).drop 2) }
      else { level := spaceCount s.data / 4, isBullet := false,
             text := String.mk (dedent s) } := by
  have hu : parseLine s =
      (match dedent s, spaceCount s.data / 4 with
       | '*' :: ' ' :: rest, lvl =>
         ({ level := lvl, isBullet := true, text := String.mk rest } : ParsedLine)
       | '•' :: ' ' :: rest, lvl => { level := lvl, isBullet := true, text := String.mk rest }
       | cs, lvl => { level := lvl, isBullet := false, text := String.mk cs }) := by
    simp only [parseLine, stripIndentUnits_eq]
    rfl
  rw [hu]
  generalize (spaceCount s.data / 4) = lvl
  rcases hd : dedent s with _ | ⟨a, _ | ⟨b, rest⟩⟩
  · simp [bulletMarker]
  · by_cases ha1 : a = '*' <;> by_cases ha2 : a = '•' <;> subst_vars <;> simp_all [bulletMarker]
  · by_cases ha1 : a = '*' <;> by_cases ha2 : a = '•' <;> by_cases hb : b = ' ' <;>
      subst_vars <;> simp_all [bulletMarker]

/-! ## Filename sanitization

All three tools run `re.sub(r"[^\w\s]", "", titre)` followed by
`.replace(" ", "_")`.  Python 3 compiles `\w` on `str` patterns
Unicode-aware: it matches ASCII alphanumerics, the underscore, and every
other Unicode word character (letters with diacritics included).  The model
below covers ASCII plus the Latin-1 letter block (U+00C0 to U+00FF minus
the two operators U+00D7 and U+00F7), which contains every character
appearing in this development. -/

/-- Python regex `\w` membership (ASCII + Latin-1 letters, see above). -/
def pyIsWordChar (c : Char) : Bool :=
  c.isAlphanum || c = '_' ||
  decide (0xC0 ≤ c.toNat ∧ c.toNat ≤ 0xFF ∧ c.toNat ≠ 0xD7 ∧ c.toNat ≠ 0xF7)

/-- `re.sub(r"[^\w\s]", "", s).replace(" ", "_")`: drop every character
that is neither a word character nor whitespace, then turn spaces into
underscores. -/
def sanitizeTitle (s : String) : String :=
  let kept := s.data.filter fun c => pyIsWordChar c || pyIsSpace c
  String.mk (kept.map fun c => if c = ' ' then '_' else c)

/-! ## DOCX generator (generate_docx.py)

The document is modelled by the trace of content mutations the generator
performs on it; formatting attributes set on a freshly added paragraph are
bundled into the paragraph event.  Style-sheet configuration
(`setup_document_styles`) and status notifications mutate no document
content and are not part of the trace. -/

/-- Paragraph-level formatting attributes set by the generators. -/
structure Fmt where
  centered : Bool := false
  justified : Bool := false
  spacing15 : Bool := false
  leftIndentPt : Option Int := none
  firstLineIndentPt : Option Int := none
  spaceAfterPt : Option Int := none
  borderBottom : Bool := false
  bold : Bool := false
  fontSizePt : Option Int := none
deriving DecidableEq, Repr

/-- One DOCX document mutation. -/
inductive Mut where
  | para (text : String) (style : Option String) (fmt : Fmt)
  | pageBreak
  | picture (path : String) (centered : Bool)
  | tocFieldPara
  | footerPageField (idx : Nat)
deriving DecidableEq, Repr

/-- The state of a just-opened document that the generator inspects: the
texts of its existing body paragraphs and its number of structural
(document-layout) sections.  A blank `Document()` has no body paragraphs
and one section. -/
structure DocModel where
  paraTexts : List String
  sectionCount : Nat
deriving DecidableEq, Repr

def blankDoc : DocModel := { paraTexts := [], sectionCount := 1 }

/-- `len(doc.paragraphs) > 0 and doc.paragraphs[0].text.strip()`. -/
def initialHasText (d : DocModel) : Bool :=
  match d.paraTexts with
  | [] => false
  | t :: _ => !pyStripEmpty t

/-- `HelpFunctions.add_cover_page`.  `add_picture` is modelled as
succeeding; its failure is caught inside the function and only logged. -/
def add_cover_page (hasText : Bool) (title subtitle author date logo : Option String)
    (fileExists : String → Bool) : List Mut :=
  (if hasText then [Mut.pageBreak] else []) ++
  [Mut.para "" none {}, Mut.para "" none {},
   Mut.para (title.getD "") (some "Title") { centered := true }] ++
  (if pyTruthy subtitle then
    [Mut.para (subtitle.getD "") (some "Subtitle") { centered := true }] else []) ++
  (if pyTruthy logo && fileExists (logo.getD "") then
    [Mut.picture (logo.getD "") true] else []) ++
  (if pyTruthy author then
    [Mut.para ("Auteur: " ++ author.getD "") none { centered := true, spaceAfterPt := some 12 }]
   else []) ++
  (if pyTruthy date then [Mut.para (date.getD "") none { centered := true }] else []) ++
  [Mut.pageBreak]

/-- `HelpFunctions.add_table_of_contents` (heading, TOC field paragraph,
page break). -/
def add_table_of_contents : List Mut :=
  [Mut.para "Table des matières" (some "Heading 1") { centered := true },
   Mut.tocFieldPara,
   Mut.pageBreak]

/-- `self.styles[f"heading{level}"]` of the 3-level generator, evaluated
on the validated range 1..3. -/
def styleForLevel (level : Int) : String :=
  if level = 1 then "Heading 1" else if level = 2 then "Heading 2" else "Heading 3"

/-- `HelpFunctions.add_heading` of the 3-level generator
(generate_docx.py lines 277-304). -/
def add_heading (heading : String) (level : Int) : Except String (List Mut) :=
  if pyStripEmpty heading then Except.error "Heading cannot be empty."
  else if level < 1 ∨ 3 < level then Except.error "Heading level must be between 1 and 3."
  else Except.ok [Mut.para heading (some (styleForLevel level)) {}]

/-- Rendering of one parsed line inside `add_paragraph_text`. -/
def paragraphLineMut (line : String) : Mut :=
  let L := parseLine line
  if L.isBullet then
    Mut.para L.text (some "List Bullet") { leftIndentPt := some ((L.level : Int) * 18) }
  else
    Mut.para L.text none
      { justified := true, spacing15 := true,
        leftIndentPt := if L.level > 0 then some ((L.level : Int) * 18) else none }

/-- `HelpFunctions.add_paragraph_text`. -/
def add_paragraph_text (content : String) : List Mut :=
  if pyStripEmpty content then []
  else (pySplitLines content).map paragraphLineMut

/-- `HelpFunctions.add_section_header`. -/
def add_section_header (title : String) : List Mut :=
  [Mut.para title (some "Heading 1") { borderBottom := true, spaceAfterPt := some 12 }]

/-- `HelpFunctions.add_bibliography`. -/
def add_bibliography (references : List String) : List Mut :=
  if references.isEmpty then []
  else
    add_section_header "Bibliographie / Références" ++
    references.map fun r =>
      Mut.para r none
        { firstLineIndentPt := some (-36), leftIndentPt := some 36, spaceAfterPt := some 6 }

/-- One entry of the `sections` array.  `Option` fields model keys that may
be absent from the JSON object; `unknown` models an entry whose `type` tag
matches none of the dispatch branches (the loop ignores it). -/
inductive DocxSection where
  | page_garde (titre sous_titre auteur date : Option String)
  | introduction (contenu : String)
  | heading (titre : String) (niveau : Int)
  | contenu (contenu : String)
  | conclusion (contenu : String)
  | bibliographie (references : List String)
  | unknown
deriving DecidableEq, Repr

def isPageGarde : DocxSection → Bool
  | .page_garde _ _ _ _ => true
  | _ => false

/-- The JSON input of `generate_docx_from_json`. -/
structure DocxRequest where
  titre : Option String
  sous_titre : Option String
  auteur : Option String
  date : Option String
  logo_path : Option String
  inclure_table_matieres : Bool
  sections : List DocxSection

/-- The mutations of one iteration of the section dispatch loop
(`page_garde` hits the `continue` branch and emits nothing). -/
def renderSection : DocxSection → Except String (List Mut)
  | .page_garde _ _ _ _ => Except.ok []
  | .introduction c => Except.ok (add_section_header "Introduction" ++ add_paragraph_text c)
  | .heading t n => add_heading t n
  | .contenu c => Except.ok (add_paragraph_text c)
  | .conclusion c => Except.ok (add_section_header "Conclusion" ++ add_paragraph_text c)
  | .bibliographie rs => Except.ok (add_bibliography rs)
  | .unknown => Except.ok []

/-- The section dispatch loop, accumulating mutations in input order and
propagating the first validation error. -/
def processSections : List DocxSection → Except String (List Mut)
  | [] => Except.ok []
  | s :: rest => do
    let m ← renderSection s
    let ms ← processSections rest
    Except.ok (m ++ ms)

/-- Step 1 of the generator: `next((s for s in sections if
s.get("type") == "page_garde"), None)` and, when found, the cover-page call
with the request-level fields as `dict.get` defaults. -/
def coverMutations (req : DocxRequest) (doc : DocModel)
    (fileExists : String → Bool) : List Mut :=
  match req.sections.find? isPageGarde with
  | some (DocxSection.page_garde t st a d) =>
    add_cover_page (initialHasText doc)
      (pyGetOr t req.titre) (pyGetOr st req.sous_titre)
      (pyGetOr a req.auteur) (pyGetOr d req.date) req.logo_path fileExists
  | _ => []

/-- Step 4 of the generator: the PAGE-field footer written into every
structural section of the document. -/
def pageNumberFooters (doc : DocModel) : List Mut :=
  (List.range doc.sectionCount).map Mut.footerPageField

/-- The `try`-block of `Tools.generate_docx_from_json` (steps 1-4): cover
page, optional table of contents, dispatched sections, page-number
footers.  On a validation error the Python code stops mutating and returns
an error string; the model reports the error without a partial trace. -/
def docx_document_structure (req : DocxRequest) (doc : DocModel)
    (fileExists : String → Bool) : Except String (List Mut) := do
  let bodyMuts ← processSections req.sections
  Except.ok (coverMutations req doc fileExists ++
    (if req.inclure_table_matieres then add_table_of_contents else []) ++
    bodyMuts ++ pageNumberFooters doc)

/-- The record returned by the host upload service. -/
structure FileRecord where
  filename : String
  id : String
deriving DecidableEq, Repr

/-- The download-link envelope returned by `Tools.upload_file`. -/
def sourceEnvelope (base : String) (r : FileRecord) : String :=
  "<source><source_id>" ++ r.filename ++ "</source_id><source_context>" ++
    base ++ r.id ++ "/content" ++ "</source_context></source>\n"

/-- The output path `self.FILES_DIR + "/" + clean_title + ".docx"` of the
3-level DOCX tool. -/
def docxOutputPath (req : DocxRequest) : String :=
  "./tmp" ++ "/" ++ sanitizeTitle (req.titre.getD "document") ++ ".docx"

/-- The whole tool entry point `Tools.generate_docx_from_json`
(generate_docx.py lines 397-585).  Template open, file save and upload are
external collaborators passed as `Except` parameters; a `.error` result of
the function models a Python exception crossing the tool boundary.  The
template open is wrapped in `try`/`except` with a blank-document fallback;
`doc.save` runs outside every `try`; the upload `try` returns the bare
string `"Error"` on failure. -/
def generate_docx_from_json (req : DocxRequest) (fileExists : String → Bool)
    (templateDoc : Except String DocModel) (saveResult : Except String Unit)
    (uploadResult : Except String FileRecord) : Except String String := do
  let doc := match templateDoc with
    | Except.ok d => d
    | Except.error _ => blankDoc
  match docx_document_structure req doc fileExists with
  | Except.error e => Except.ok ("Error: " ++ e)
  | Except.ok _muts =>
    let _path := docxOutputPath req
    let _ ← saveResult
    match uploadResult with
    | Except.error _ => Except.ok "Error"
    | Except.ok r => Except.ok (sourceEnvelope "http://localhost:8080/api/v1/files/" r)

namespace DocxV5

/-! The 5-level variant `src/generate_docx.py` differs (for the claims
below) in its `add_heading`: levels 1..5, template-specific style names,
and a `try`/`except` manual-formatting fallback when the style is not in
the document. -/

/-- The composition of `style_mapping` and `actual_styles` of the 5-level
`add_heading`, evaluated on the validated range 1..5. -/
def actualStyle (level : Int) : String :=
  if level = 1 then "Titre1-Numeroté"
  else if level = 2 then "Titre2-Numéroté"
  else if level = 3 then "Titre3-Numéroté"
  else if level = 4 then "Heading 4"
  else "Heading 5"

/-- `HelpFunctions.add_heading` of the 5-level generator
(src/generate_docx.py lines 296-332).  `styleOk` tells whether a named
style exists in the destination document; when it does not, the `except`
branch formats manually and never raises. -/
def add_heading (styleOk : String → Bool) (heading : String) (level : Int) :
    Except String (List Mut) :=
  if pyStripEmpty heading then Except.error "Heading cannot be empty."
  else if level < 1 ∨ 5 < level then Except.error "Heading level must be between 1 and 5."
  else if styleOk (actualStyle level) then
    Except.ok [Mut.para heading (some (actualStyle level)) {}]
  else
    Except.ok [Mut.para heading (some "Normal")
      { bold := true, fontSizePt := some (16 - (level - 1) * 2) }]

end DocxV5

/-! ## PPTX generator (generate_pptx.py)

A presentation is modelled by its trace of slide mutations.  The layout
indices are the `slide_layouts` table of `HelpFunctions`
(title_and_content 1, chapter_title 3, basic_content 4, final 12/13). -/

/-- One PPTX mutation. -/
inductive PptxMut where
  | addSlide (layoutIdx : Nat)
  | setShapeText (shapeIdx : Nat) (text : String)
  | addBodyPara (text : String) (level : Nat)
deriving DecidableEq, Repr

/-- `HelpFunctions.add_title_slide`; `today` stands for
`datetime.now().strftime("%d/%m/%Y")`. -/
def add_title_slide (title author today : String) : Except String (List PptxMut) :=
  if pyStripEmpty title then Except.error "Slide title cannot be empty."
  else Except.ok [PptxMut.addSlide 1, PptxMut.setShapeText 0 title,
    PptxMut.setShapeText 1 author, PptxMut.setShapeText 3 today]

/-- `HelpFunctions.add_chapter_slide`. -/
def add_chapter_slide (chapter : String) (suptitle : Option String) :
    Except String (List PptxMut) :=
  if pyStripEmpty chapter then Except.error "Slide title cannot be empty."
  else Except.ok ([PptxMut.addSlide 3, PptxMut.setShapeText 0 chapter] ++
    (match suptitle with
     | some s => if !pyStripEmpty s then [PptxMut.setShapeText 1 s] else []
     | none => []))

/-- Rendering of one parsed line inside `add_content_slide`: a bulleted
line gets outline level `spacing + 1`, incremented once more when that is
at least 2 (the template workaround); a non-bullet line keeps level 0 and
gets `"   " * spacing` prepended to its text. -/
def contentLineMut (line : String) : PptxMut :=
  let L := parseLine line
  if L.isBullet then
    let lvl := L.level + 1
    PptxMut.addBodyPara L.text (if 2 ≤ lvl then lvl + 1 else lvl)
  else
    PptxMut.addBodyPara (pyRep "   " L.level ++ L.text) 0

/-- `HelpFunctions.add_content_slide` (generate_pptx.py lines 233-287). -/
def add_content_slide (title content : String) : Except String (List PptxMut) :=
  if pyStripEmpty title then Except.error "Slide title cannot be empty."
  else if pyStripEmpty content then Except.error "Slide content cannot be empty."
  else Except.ok ([PptxMut.addSlide 4, PptxMut.setShapeText 0 title] ++
    (pySplitLines content).map contentLineMut)

/-- `HelpFunctions.add_final_slide`. -/
def add_final_slide (language : String) : List PptxMut :=
  if language = "fr" then [PptxMut.addSlide 12] else [PptxMut.addSlide 13]

/-- One entry of the `slides` array; every key may be absent, and the tool
reads them with raising `dict` subscripts. -/
structure PptxSlide where
  ptype : Option String
  titre : Option String
  contenu : Option String

/-- The slide dispatch loop of the tool (chapitre / contenu / ignored). -/
def processSlides : List PptxSlide → Except String (List PptxMut)
  | [] => Except.ok []
  | s :: rest => do
    let t ← pyGetKey s.ptype "type"
    let m ←
      if t = "chapitre" then do
        let ti ← pyGetKey s.titre "titre"
        add_chapter_slide ti none
      else if t = "contenu" then do
        let ti ← pyGetKey s.titre "titre"
        let c ← pyGetKey s.contenu "contenu"
        add_content_slide ti c
      else Except.ok []
    let ms ← processSlides rest
    Except.ok (m ++ ms)

/-- The JSON input of `generate_pptx_from_json`. -/
structure PptxRequest where
  titre : Option String
  slides : List PptxSlide

/-- The confidentiality-dependent filename marker of the PPTX tool. -/
def confMarker (confidentiality : String) : String :=
  if confidentiality = "public" then "CS-PU-"
  else if confidentiality = "internal" then "CS-IN-"
  else "CS-CO-"

/-- The whole tool entry point `Tools.generate_pptx_from_json`
(generate_pptx.py lines 319-441).  The template open (`Presentation(path)`)
and the title slide run before the slide-loop `try`-block and outside any
handler, so their failures escape as exceptions (`.error` results); the
slide-loop `except` and the upload `except` both return the bare string
`"Error"`; `prs.save` runs between the two `try`-blocks, outside both. -/
def generate_pptx_from_json (language confidentiality : String) (req : PptxRequest)
    (userName today : String) (templateLoad : String → Except String Unit)
    (saveResult : Except String Unit) (uploadResult : Except String FileRecord) :
    Except String String := do
  let pfx := confMarker confidentiality
  let templatePath :=
    if language = "fr" ∨ language = "french"
    then "./" ++ "./" ++ pfx ++ "template_fr.pptx"
    else "./" ++ "./" ++ pfx ++ "template_en.pptx"
  let _ ← templateLoad templatePath
  let titre ← pyGetKey req.titre "titre"
  let _titleMuts ← add_title_slide titre userName today
  match (do
      let body ← processSlides req.slides
      Except.ok (body ++ add_final_slide language) : Except String (List PptxMut)) with
  | Except.error _ => Except.ok "Error"
  | Except.ok _muts =>
    let cleanTitre := sanitizeTitle titre
    let _outputPath := "./tmp" ++ "/" ++ pfx ++ cleanTitre ++ ".pptx"
    let _ ← saveResult
    match uploadResult with
    | Except.error _ => Except.ok "Error"
    | Except.ok r => Except.ok (sourceEnvelope "http://localhost:3000/api/v1/files/" r)

/-! ## Excel generator (src/generate_excel.py)

A worksheet is modelled by its final name, the cell values written (as
(row, column, value) triples, 1-based as in openpyxl), the merged ranges
and the native table objects.  Pure styling (fonts, fills, borders, column
widths, row heights) mutates no tracked state.  The openpyxl worksheet
title setter is treated as a black-box plain assignment: the 31-character
truncation below is performed by this repository in `format_worksheet`. -/

/-- A cell value of the input table (string or number). -/
inductive CellVal where
  | str (s : String)
  | num (n : Int)
deriving DecidableEq, Repr

/-- The `tableau` object of a sheet entry. -/
structure Tableau where
  colonnes : List String
  donnees : List (List CellVal)

/-- One entry of the `feuilles` array. -/
structure Feuille where
  nom : Option String
  tableau : Option Tableau

/-- The tracked worksheet state. -/
structure WsState where
  name : String
  cells : List (Nat × Nat × CellVal)
  merges : List String
  tables : List (String × String)
deriving DecidableEq, Repr

/-- `openpyxl.utils.get_column_letter` (1 = A, 27 = AA). -/
def colLetter (n : Nat) : String :=
  if h : n ≤ 26 then String.mk [Char.ofNat (64 + n)]
  else colLetter ((n - 1) / 26) ++ String.mk [Char.ofNat (65 + (n - 1) % 26)]
termination_by n
decreasing_by
  simp at h
  omega

/-- `HelpFunctions.format_worksheet`: truncates the worksheet name to 31
characters, writes the full title into A1 and merges A1:D1. -/
def format_worksheet (ws : WsState) (title : String) : WsState :=
  { ws with
    name := pyTake 31 title,
    cells := ws.cells ++ [(1, 1, CellVal.str title)],
    merges := ws.merges ++ ["A1:D1"] }

/-- `HelpFunctions.format_header_row`: writes the column names into the
header row (columns enumerated from 1). -/
def format_header_row (ws : WsState) (rowNum : Nat) (columns : List String) : WsState :=
  { ws with cells := ws.cells ++ columns.enum.map fun p => (rowNum, p.1 + 1, CellVal.str p.2) }

/-- One data row written at `enumerate(row_data, 1)` column positions. -/
def writeRow (ws : WsState) (rowIdx : Nat) (row : List CellVal) : WsState :=
  { ws with cells := ws.cells ++ row.enum.map fun p => (rowIdx, p.1 + 1, p.2) }

/-- The data-row loop `enumerate(data_rows, header_row + 1)`. -/
def writeDataRows (ws : WsState) (rowIdx : Nat) : List (List CellVal) → WsState
  | [] => ws
  | row :: rest => writeDataRows (writeRow ws rowIdx row) (rowIdx + 1) rest

/-- `HelpFunctions.create_excel_table` (its own failures are caught by the
surrounding `try` and only logged; the model records the attempt). -/
def create_excel_table (ws : WsState) (startRow endRow numCols : Nat)
    (tableName : String) : WsState :=
  { ws with tables := ws.tables ++
      [(tableName, "A" ++ toString startRow ++ ":" ++ colLetter numCols ++ toString endRow)] }

/-- The numeric-column detection of the totals block: a column counts as
numeric when every data row that is long enough holds a number there. -/
def numericCols (t : Tableau) : List Nat :=
  ((List.range t.colonnes.length).map fun i => i + 1).filter fun colIdx =>
    t.donnees.all fun row =>
      match row.get? (colIdx - 1) with
      | some (CellVal.num _) => true
      | some _ => false
      | none => true

/-- The totals block: a bold `Total` label and one live SUM formula per
uniformly numeric column. -/
def addTotals (ws : WsState) (headerRow : Nat) (t : Tableau) : WsState :=
  if t.donnees.isEmpty then ws
  else
    let cols := numericCols t
    if cols.isEmpty then ws
    else
      let totalRow := headerRow + t.donnees.length + 1
      { ws with cells := ws.cells ++ [(totalRow, 1, CellVal.str "Total")] ++
          cols.map fun colIdx =>
            (totalRow, colIdx,
              CellVal.str ("=SUM(" ++ colLetter colIdx ++ toString (headerRow + 1) ++ ":" ++
                colLetter colIdx ++ toString (headerRow + t.donnees.length) ++ ")")) }

/-- One iteration of the sheet loop of `Tools.generate_excel_from_json`
(src/generate_excel.py lines 236-307): create the worksheet under the
requested name, format it (name truncation + merged title), then write
header, data, native table and totals when a `tableau` is present. -/
def buildSheet (sheetIdx : Nat) (f : Feuille) : WsState :=
  let sheetName := f.nom.getD ("Feuille " ++ toString (sheetIdx + 1))
  let ws : WsState := { name := sheetName, cells := [], merges := [], tables := [] }
  let ws := format_worksheet ws sheetName
  match f.tableau with
  | none => ws
  | some t =>
    let headerRow := 3
    let ws := format_header_row ws headerRow t.colonnes
    let ws := writeDataRows ws (headerRow + 1) t.donnees
    let ws :=
      if t.donnees.isEmpty then ws
      else
        create_excel_table ws headerRow (headerRow + t.donnees.length)
          t.colonnes.length ("Table" ++ toString sheetIdx)
    addTotals ws headerRow t

/-- The `enumerate(json_data.get("feuilles", []))` loop. -/
def buildSheets (i : Nat) : List Feuille → List WsState
  | [] => []
  | f :: rest => buildSheet i f :: buildSheets (i + 1) rest

/-- The workbook after the sheet loop: the default `Sheet` is deleted
whenever at least one sheet entry is given, so every worksheet is created
by the loop; with no entries the default sheet remains. -/
def generate_excel_workbook (feuilles : List Feuille) : List WsState :=
  if feuilles.isEmpty then [{ name := "Sheet", cells := [], merges := [], tables := [] }]
  else buildSheets 0 feuilles

/-- The JSON input of `generate_excel_from_json`. -/
structure ExcelRequest where
  titre : Option String
  feuilles : List Feuille

/-- The whole tool entry point `Tools.generate_excel_from_json`
(src/generate_excel.py lines 172-339).  Nothing in the modelled sheet loop
raises; `wb.save` runs outside every `try`; both `except` branches return
`"Error: " + str(e)`. -/
def generate_excel_from_json (req : ExcelRequest) (saveResult : Except String Unit)
    (uploadResult : Except String FileRecord) : Except String String := do
  let _wb := generate_excel_workbook req.feuilles
  let _path := "./tmp" ++ "/" ++ sanitizeTitle (req.titre.getD "excel") ++ ".xlsx"
  let _ ← saveResult
  match uploadResult with
  | Except.error e => Except.ok ("Error: " ++ e)
  | Except.ok r => Except.ok (sourceEnvelope "http://localhost:3000/api/v1/files/" r)

/-! ## Claim theorems -/

/-- Whether a modelled Python call raised. -/
def isErr {ε α : Type} : Except ε α → Bool
  | Except.error _ => true
  | Except.ok _ => false

/-- C1: for every input line, the parser strips complete leading 4-space
units and counts them as the nesting level (`floor(leading_spaces / 4)`,
with `is_bullet = false` when no bullet marker follows); when the dedented
text starts with `"* "` or `"• "` that 2-character marker is stripped and
`is_bullet = true`; in particular `"* item"` parses to
`(0, true, "item")` and `"    * item"` parses to `(1, true, "item")`. -/
theorem claim_C1 :
    (∀ s : String, bulletMarker (dedent s) = false →
      (parseLine s).level = spaceCount s.data / 4 ∧ (parseLine s).isBullet = false ∧
      (parseLine s).text = String.mk (dedent s))
  ∧ (∀ s : String, bulletMarker (dedent s) = true →
      (parseLine s).level = spaceCount s.data / 4 ∧ (parseLine s).isBullet = true ∧
      (parseLine s).text = String.mk ((dedent s).drop 2))
  ∧ parseLine "* item" = { level := 0, isBullet := true, text := "item" }
  ∧ parseLine "    * item" = { level := 1, isBullet := true, text := "item" } := by
  refine ⟨?_, ?_, by decide, by decide⟩
  · intro s hb
    rw [parseLine_spec]
    simp [hb]
  · intro s hb
    rw [parseLine_spec]
    simp [hb]

/-- Witness for C1 at the concrete non-bullet line of six leading
spaces. -/
theorem claim_C1_witness :
    bulletMarker (dedent "      note") = false ∧
    ((parseLine "      note").level = spaceCount "      note".data / 4 ∧
     (parseLine "      note").isBullet = false ∧
     (parseLine "      note").text = String.mk (dedent "      note")) :=
  ⟨by decide, claim_C1.1 "      note" (by decide)⟩

/-- C3: `add_heading` raises exactly when the heading text is
empty/all-whitespace or the level is out of range (1..3 for the 3-level
generator, 1..5 for the 5-level one); with non-empty text, levels 0 and 6
raise in the 5-level generator and levels 1..5 succeed — out-of-range
levels are rejected, never clamped. -/
theorem claim_C3 :
    ∀ (heading : String) (level : Int) (styleOk : String → Bool),
      (isErr (add_heading heading level) = true ↔
        (pyStripEmpty heading = true ∨ level < 1 ∨ 3 < level))
    ∧ (isErr (DocxV5.add_heading styleOk heading level) = true ↔
        (pyStripEmpty heading = true ∨ level < 1 ∨ 5 < level))
    ∧ (pyStripEmpty heading = false →
        isErr (DocxV5.add_heading styleOk heading 0) = true ∧
        isErr (DocxV5.add_heading styleOk heading 6) = true ∧
        ∀ l : Int, 1 ≤ l → l ≤ 5 →
          isErr (DocxV5.add_heading styleOk heading l) = false) := by
  intro heading level styleOk
  refine ⟨?_, ?_, ?_⟩
  · unfold add_heading
    split_ifs <;> simp_all [isErr]
  · unfold DocxV5.add_heading
    split_ifs <;> simp_all [isErr]
  · intro hne
    unfold DocxV5.add_heading
    refine ⟨by simp [hne, isErr], by split_ifs <;> simp_all [isErr], ?_⟩
    intro l h1 h5
    split_ifs <;> simp_all [isErr]
    omega

/-- Witness for C3 at a concrete non-empty heading. -/
theorem claim_C3_witness :
    isErr (DocxV5.add_heading (fun _ => true) "Contexte" 0) = true ∧
    isErr (DocxV5.add_heading (fun _ => true) "Contexte" 6) = true ∧
    ∀ l : Int, 1 ≤ l → l ≤ 5 →
      isErr (DocxV5.add_heading (fun _ => true) "Contexte" l) = false :=
  (claim_C3 "Contexte" 0 (fun _ => true)).2.2 (by decide)

/-- C9: `add_bibliography` with an empty list adds nothing; with a
non-empty list it adds the fixed section header and then exactly one
paragraph per reference in order, each with left indent 36pt and
first-line indent -36pt. -/
theorem claim_C9 :
    add_bibliography [] = [] ∧
    ∀ refs : List String, refs ≠ [] →
      add_bibliography refs =
        Mut.para "Bibliographie / Références" (some "Heading 1")
          { borderBottom := true, spaceAfterPt := some 12 } ::
        refs.map fun r =>
          Mut.para r none
            { firstLineIndentPt := some (-36), leftIndentPt := some 36,
              spaceAfterPt := some 6 } := by
  constructor
  · rfl
  · intro refs h
    unfold add_bibliography
    rw [if_neg (by simpa using h)]
    rfl

/-- Witness for C9 at the one-reference list. -/
theorem claim_C9_witness :
    add_bibliography ["R1"] =
      Mut.para "Bibliographie / Références" (some "Heading 1")
        { borderBottom := true, spaceAfterPt := some 12 } ::
      (["R1"].map fun r =>
        Mut.para r none
          { firstLineIndentPt := some (-36), leftIndentPt := some 36,
            spaceAfterPt := some 6 }) :=
  claim_C9.2 ["R1"] (by decide)

/-- Transcription of the level mapping stated by claim C4: a bulleted line
of parsed indentation count `k` maps to outline level 1 when `k = 0` and to
`k + 2` otherwise; a non-bullet line keeps level 0 (with the literal
3-space-per-unit indentation in its text).  To be compared against the
source-derived `contentLineMut`. -/
def claimedContentLineMut (line : String) : PptxMut :=
  if (parseLine line).isBullet then
    PptxMut.addBodyPara (parseLine line).text
      (if (parseLine line).level = 0 then 1 else (parseLine line).level + 2)
  else
    PptxMut.addBodyPara (pyRep "   " (parseLine line).level ++ (parseLine line).text) 0

/-- C4: on a valid content slide, a bulleted line with parsed indentation
count `k` receives native outline level `k + 1`, incremented once more when
that is at least 2 — so `k = 0` yields 1 and every `k ≥ 1` yields
`k + 2` — while a non-bullet line always keeps outline level 0. -/
theorem claim_C4 :
    ∀ title content : String,
      pyStripEmpty title = false → pyStripEmpty content = false →
      add_content_slide title content =
        Except.ok ([PptxMut.addSlide 4, PptxMut.setShapeText 0 title] ++
          (pySplitLines content).map claimedContentLineMut) := by
  intro title content ht hc
  unfold add_content_slide
  rw [ht, hc]
  simp only [Bool.false_eq_true, if_false]
  refine congrArg Except.ok (congrArg _ ?_)
  apply List.map_congr_left
  intro line _
  unfold contentLineMut claimedContentLineMut
  cases hbul : (parseLine line).isBullet <;> simp only [hbul, if_true, if_false]
  · rfl
  · cases hL : (parseLine line).level with
    | zero => simp
    | succ k => simp

/-- Witness for C4 at a one-line bulleted content. -/
theorem claim_C4_witness :
    add_content_slide "Points" "* a" =
      Except.ok ([PptxMut.addSlide 4, PptxMut.setShapeText 0 "Points"] ++
        (pySplitLines "* a").map claimedContentLineMut) :=
  claim_C4 "Points" "* a" (by decide) (by decide)

/-- The section loop equals, on success, the concatenation of the renders
of the non-cover sections in their original relative order: `page_garde`
entries contribute nothing wherever they sit. -/
lemma processSections_eq (l : List DocxSection) :
    processSections l =
      Except.map List.flatten ((l.filter fun s => !isPageGarde s).mapM renderSection) := by
  induction l with
  | nil => rfl
  | cons s rest ih =>
    by_cases hpg : isPageGarde s = true
    · have hr : renderSection s = Except.ok [] := by
        cases s <;> first | rfl | simp [isPageGarde] at hpg
      rw [show ((s :: rest).filter fun x => !isPageGarde x)
            = rest.filter fun x => !isPageGarde x by simp [hpg]]
      show (do
        let m ← renderSection s
        let ms ← processSections rest
        Except.ok (m ++ ms)) = _
      rw [hr, ih]
      cases hrest : (rest.filter fun x => !isPageGarde x).mapM renderSection with
      | error e => rfl
      | ok parts => rfl
    · rw [show ((s :: rest).filter fun x => !isPageGarde x)
            = s :: (rest.filter fun x => !isPageGarde x) by simp [hpg]]
      show (do
        let m ← renderSection s
        let ms ← processSections rest
        Except.ok (m ++ ms)) = _
      rw [List.mapM_cons, ih]
      cases hs : renderSection s with
      | error e => rfl
      | ok m =>
        cases hrest : (rest.filter fun x => !isPageGarde x).mapM renderSection with
        | error e => rfl
        | ok parts => rfl

/-- C2: on success the DOCX generator trace decomposes, in this fixed
order, into the cover page (present exactly when a `page_garde` section
exists, built with request-level fields as defaults), then the table of
contents when requested, then the remaining sections in their original
relative order with `page_garde` entries skipped, then the page-number
footer of every document-structure section. -/
theorem claim_C2 :
    ∀ (req : DocxRequest) (doc : DocModel) (fileExists : String → Bool) (tr : List Mut),
      docx_document_structure req doc fileExists = Except.ok tr →
      ∃ parts : List (List Mut),
        (req.sections.filter fun s => !isPageGarde s).mapM renderSection = Except.ok parts ∧
        tr = coverMutations req doc fileExists ++
          (if req.inclure_table_matieres then add_table_of_contents else []) ++
          parts.flatten ++ pageNumberFooters doc := by
  intro req doc fe tr h
  unfold docx_document_structure at h
  rw [processSections_eq] at h
  cases hm : (req.sections.filter fun s => !isPageGarde s).mapM renderSection with
  | error e =>
    rw [hm] at h
    simp [Except.map, bind, Except.bind] at h
  | ok parts =>
    rw [hm] at h
    simp only [Except.map] at h
    refine ⟨parts, rfl, ?_⟩
    cases h
    rfl

/-- Concrete request used by the C2 witness. -/
def docxReqW : DocxRequest :=
  { titre := some "T", sous_titre := none, auteur := none, date := none,
    logo_path := none, inclure_table_matieres := false,
    sections := [DocxSection.heading "A" 1] }

/-- Concrete trace of `docxReqW` on a blank document. -/
def docxTraceW : List Mut :=
  [Mut.para "A" (some "Heading 1") {}, Mut.footerPageField 0]

/-- Witness for C2 at a one-heading request on a blank document. -/
theorem claim_C2_witness :
    ∃ parts : List (List Mut),
      (docxReqW.sections.filter fun s => !isPageGarde s).mapM renderSection =
        Except.ok parts ∧
      docxTraceW = coverMutations docxReqW blankDoc (fun _ => false) ++
        (if docxReqW.inclure_table_matieres then add_table_of_contents else []) ++
        parts.flatten ++ pageNumberFooters blankDoc :=
  claim_C2 docxReqW blankDoc (fun _ => false) docxTraceW rfl

/-- The cover-page entry of the C8 round-trip request. -/
def c8Cover : DocxSection := DocxSection.page_garde (some "T") none none none

/-- The three non-cover entries of the C8 request, in the order named by
the claim. -/
def c8NonCover : List DocxSection :=
  [DocxSection.heading "A" 1, DocxSection.contenu "x", DocxSection.bibliographie ["R1"]]

/-- List insertion at a position (clipped to the end). -/
def insertAt {α : Type} : Nat → α → List α → List α
  | 0, a, l => a :: l
  | _ + 1, a, [] => [a]
  | n + 1, a, x :: l => x :: insertAt n a l

/-- The C8 request around a given section array. -/
def c8Req (sections : List DocxSection) : DocxRequest :=
  { titre := some "T", sous_titre := none, auteur := none, date := none,
    logo_path := none, inclure_table_matieres := false, sections := sections }

/-- The linear content order the claim describes: cover block, heading
"A", paragraph "x", bibliography header, paragraph "R1", footer. -/
def c8Trace : List Mut :=
  [Mut.para "" none {}, Mut.para "" none {},
   Mut.para "T" (some "Title") { centered := true }, Mut.pageBreak,
   Mut.para "A" (some "Heading 1") {},
   Mut.para "x" none { justified := true, spacing15 := true },
   Mut.para "Bibliographie / Références" (some "Heading 1")
     { borderBottom := true, spaceAfterPt := some 12 },
   Mut.para "R1" none
     { firstLineIndentPt := some (-36), leftIndentPt := some 36, spaceAfterPt := some 6 },
   Mut.footerPageField 0]

/-- C8 (amended): the request yields exactly the claimed linear order for
every array position of the cover-page entry — the cover page is always
rendered first. -/
theorem claim_C8 :
    ∀ i : Nat, i ≤ 3 →
      docx_document_structure (c8Req (insertAt i c8Cover c8NonCover)) blankDoc
        (fun _ => false) = Except.ok c8Trace := by
  intro i hi
  interval_cases i <;> rfl

/-- Witness for C8 with the cover page listed first. -/
theorem claim_C8_witness :
    docx_document_structure (c8Req (insertAt 0 c8Cover c8NonCover)) blankDoc
      (fun _ => false) = Except.ok c8Trace :=
  claim_C8 0 (by decide)

/-- The same entries with heading and body swapped. -/
def c8Swapped : List DocxSection :=
  [c8Cover, DocxSection.contenu "x", DocxSection.heading "A" 1,
   DocxSection.bibliographie ["R1"]]

/-- Trace of the swapped request: paragraph "x" now precedes heading
"A". -/
def c8SwappedTrace : List Mut :=
  [Mut.para "" none {}, Mut.para "" none {},
   Mut.para "T" (some "Title") { centered := true }, Mut.pageBreak,
   Mut.para "x" none { justified := true, spacing15 := true },
   Mut.para "A" (some "Heading 1") {},
   Mut.para "Bibliographie / Références" (some "Heading 1")
     { borderBottom := true, spaceAfterPt := some 12 },
   Mut.para "R1" none
     { firstLineIndentPt := some (-36), leftIndentPt := some 36, spaceAfterPt := some 6 },
   Mut.footerPageField 0]

/-- Counterexample to C8 as stated: permuting the non-cover entries does
change the output order — the swapped request renders paragraph "x" before
heading "A", so its trace is not the claimed one. -/
theorem claim_C8_cex :
    docx_document_structure (c8Req c8Swapped) blankDoc (fun _ => false) =
      Except.ok c8SwappedTrace ∧
    c8SwappedTrace ≠ c8Trace :=
  ⟨rfl, by decide⟩

/-- The output path of the 5-level DOCX tool, which prepends its
configured fixed marker `CS-IN_` to the sanitized title. -/
def docxOutputPathV5 (titre : Option String) : String :=
  "./tmp" ++ "/" ++ "CS-IN_" ++ sanitizeTitle (titre.getD "document") ++ ".docx"

/-- C5 (amended): the filename is the sanitized title (with the optional
fixed marker prepended), where sanitization drops every character that is
neither a word character nor whitespace and then maps spaces to
underscores; Python `\w` is Unicode-aware, so the accented letters of
`"Rapport: Été 2024!"` are retained and the example maps to
`"Rapport_Été_2024"`, while every output character is a word character or
non-space whitespace. -/
theorem claim_C5 :
    sanitizeTitle "Rapport: Été 2024!" = "Rapport_Été_2024" ∧
    docxOutputPath
      { titre := some "Rapport: Été 2024!", sous_titre := none, auteur := none,
        date := none, logo_path := none, inclure_table_matieres := false,
        sections := [] } = "./tmp/Rapport_Été_2024.docx" ∧
    docxOutputPathV5 (some "Rapport: Été 2024!") = "./tmp/CS-IN_Rapport_Été_2024.docx" ∧
    ∀ (s : String) (c : Char), c ∈ (sanitizeTitle s).data →
      pyIsWordChar c = true ∨ (pyIsSpace c = true ∧ c ≠ ' ') := by
  refine ⟨rfl, rfl, rfl, ?_⟩
  intro s c hc
  have hdata : (sanitizeTitle s).data =
      ((s.data.filter fun a => pyIsWordChar a || pyIsSpace a).map
        fun a => if a = ' ' then '_' else a) := rfl
  rw [hdata] at hc
  obtain ⟨a, ha, rfl⟩ := List.mem_map.mp hc
  by_cases hsp : a = ' '
  · subst hsp
    simp only [if_pos rfl]
    left
    decide
  · rw [if_neg hsp]
    have hkeep : (pyIsWordChar a || pyIsSpace a) = true := (List.mem_filter.mp ha).2
    rcases (Bool.or_eq_true _ _).mp hkeep with hw | hs2
    · left; exact hw
    · right; exact ⟨hs2, hsp⟩

/-- Witness for C5 on the underscore produced from the space of
`"a b"`. -/
theorem claim_C5_witness :
    pyIsWordChar '_' = true ∨ (pyIsSpace '_' = true ∧ '_' ≠ ' ') :=
  claim_C5.2.2.2 "a b" '_' (by decide)

/-- Counterexample to C5 as stated: the sanitization regex does not remove
the accented letters — the example title maps to `"Rapport_Été_2024"` and
not to the claimed `"Rapport_t_2024"`. -/
theorem claim_C5_cex :
    sanitizeTitle "Rapport: Été 2024!" = "Rapport_Été_2024" ∧
    ("Rapport_Été_2024" : String) ≠ "Rapport_t_2024" :=
  ⟨rfl, by decide⟩

/-- C6 (amended): failures inside the tools are surfaced as strings — the
DOCX tool answers every upload failure with the bare string `"Error"` (or
`"Error: " + message` when generation already failed) and the Excel tool
answers `"Error: " + message` — but the PPTX tool runs its title slide
outside every handler, so an empty presentation title makes a `ValueError`
cross the tool boundary. -/
theorem claim_C6 :
    (∀ (req : DocxRequest) (fe : String → Bool) (tmpl : Except String DocModel)
       (e : String),
      generate_docx_from_json req fe tmpl (Except.ok ()) (Except.error e) =
        Except.ok "Error" ∨
      ∃ m, generate_docx_from_json req fe tmpl (Except.ok ()) (Except.error e) =
        Except.ok ("Error: " ++ m))
  ∧ (∀ (req : ExcelRequest) (e : String),
      generate_excel_from_json req (Except.ok ()) (Except.error e) =
        Except.ok ("Error: " ++ e))
  ∧ (∀ (conf userName today : String) (slides : List PptxSlide)
       (saveResult : Except String Unit) (uploadResult : Except String FileRecord),
      generate_pptx_from_json "fr" conf { titre := some "", slides := slides }
        userName today (fun _ => Except.ok ()) saveResult uploadResult =
        Except.error "Slide title cannot be empty.") := by
  refine ⟨?_, ?_, ?_⟩
  · intro req fe tmpl e
    cases hm : docx_document_structure req
        (match tmpl with | Except.ok d => d | Except.error _ => blankDoc) fe with
    | error m =>
      right
      exact ⟨m, by simp [generate_docx_from_json, hm]⟩
    | ok muts =>
      left
      simp [generate_docx_from_json, hm, bind, Except.bind]
  · intro req e
    rfl
  · intro conf userName today slides saveResult uploadResult
    rfl

/-- Witness for C6 on concrete docx and excel failure inputs. -/
theorem claim_C6_witness :
    (generate_docx_from_json docxReqW (fun _ => false) (Except.ok blankDoc)
        (Except.ok ()) (Except.error "storage down") = Except.ok "Error" ∨
      ∃ m, generate_docx_from_json docxReqW (fun _ => false) (Except.ok blankDoc)
        (Except.ok ()) (Except.error "storage down") = Except.ok ("Error: " ++ m)) ∧
    generate_excel_from_json { titre := some "T", feuilles := [] }
      (Except.ok ()) (Except.error "storage down") =
      Except.ok ("Error: " ++ "storage down") :=
  ⟨claim_C6.1 docxReqW (fun _ => false) (Except.ok blankDoc) "storage down",
   claim_C6.2.1 { titre := some "T", feuilles := [] } "storage down"⟩

/-- Counterexample to C6 as stated: an empty PPTX title raises across the
tool boundary, and the DOCX upload failure answer is `"Error"`, which does
not begin with `"Error: "`. -/
theorem claim_C6_cex :
    generate_pptx_from_json "fr" "public" { titre := some "", slides := [] }
      "u" "01/01/2026" (fun _ => Except.ok ()) (Except.ok ())
      (Except.ok { filename := "f", id := "i" }) =
      Except.error "Slide title cannot be empty." ∧
    generate_docx_from_json
      { titre := some "T", sous_titre := none, auteur := none, date := none,
        logo_path := none, inclure_table_matieres := false, sections := [] }
      (fun _ => false) (Except.ok blankDoc) (Except.ok ())
      (Except.error "storage down") = Except.ok "Error" ∧
    ∀ m : String, ("Error" : String) ≠ "Error: " ++ m := by
  refine ⟨rfl, rfl, ?_⟩
  intro m h
  have h2 := congrArg (fun s => s.data.length) h
  simp [String.instAppend, String.append] at h2

/-- C7 (amended): the DOCX generator recovers from a template-open failure
by continuing on a blank document, but the PPTX generator opens its
template outside every handler, so a template-load failure aborts the
request (the Excel generator opens no template at all). -/
theorem claim_C7 :
    (∀ (req : DocxRequest) (fe : String → Bool) (e : String)
       (saveResult : Except String Unit) (uploadResult : Except String FileRecord),
      generate_docx_from_json req fe (Except.error e) saveResult uploadResult =
        generate_docx_from_json req fe (Except.ok blankDoc) saveResult uploadResult)
  ∧ (∀ (language conf : String) (req : PptxRequest) (userName today e : String)
       (saveResult : Except String Unit) (uploadResult : Except String FileRecord),
      generate_pptx_from_json language conf req userName today
        (fun _ => Except.error e) saveResult uploadResult = Except.error e) := by
  constructor
  · intro req fe e saveResult uploadResult
    rfl
  · intro language conf req userName today e saveResult uploadResult
    rfl

/-- Witness for C7 on concrete inputs: the DOCX tool yields the same
answer under a failing and a blank template, and the PPTX tool propagates
the template exception. -/
theorem claim_C7_witness :
    generate_docx_from_json docxReqW (fun _ => false)
        (Except.error "Package not found") (Except.ok ())
        (Except.ok { filename := "f", id := "i" }) =
      generate_docx_from_json docxReqW (fun _ => false) (Except.ok blankDoc)
        (Except.ok ()) (Except.ok { filename := "f", id := "i" }) ∧
    generate_pptx_from_json "fr" "public" { titre := some "T", slides := [] }
        "u" "01/01/2026" (fun _ => Except.error "Package not found")
        (Except.ok ()) (Except.ok { filename := "f", id := "i" }) =
      Except.error "Package not found" :=
  ⟨claim_C7.1 docxReqW (fun _ => false) "Package not found" (Except.ok ())
      (Except.ok { filename := "f", id := "i" }),
   claim_C7.2 "fr" "public" { titre := some "T", slides := [] } "u" "01/01/2026"
      "Package not found" (Except.ok ()) (Except.ok { filename := "f", id := "i" })⟩

/-- Counterexample to C7 as stated: in the PPTX generator a template-open
failure is not recovered — it crosses the tool boundary as an exception
instead of falling back to an empty presentation. -/
theorem claim_C7_cex :
    generate_pptx_from_json "fr" "public" { titre := some "T", slides := [] }
      "u" "01/01/2026" (fun _ => Except.error "Package not found")
      (Except.ok ()) (Except.ok { filename := "f", id := "i" }) =
      Except.error "Package not found" := rfl

lemma writeRow_name (ws : WsState) (r : Nat) (row : List CellVal) :
    (writeRow ws r row).name = ws.name := rfl

lemma writeDataRows_name (rows : List (List CellVal)) :
    ∀ (ws : WsState) (r : Nat), (writeDataRows ws r rows).name = ws.name := by
  induction rows with
  | nil => intro ws r; rfl
  | cons row rest ih => intro ws r; simp [writeDataRows, ih, writeRow]

lemma writeDataRows_merges (rows : List (List CellVal)) :
    ∀ (ws : WsState) (r : Nat), (writeDataRows ws r rows).merges = ws.merges := by
  induction rows with
  | nil => intro ws r; rfl
  | cons row rest ih => intro ws r; simp [writeDataRows, ih, writeRow]

lemma writeDataRows_cells_mem (rows : List (List CellVal)) :
    ∀ (ws : WsState) (r : Nat) (x : Nat × Nat × CellVal),
      x ∈ ws.cells → x ∈ (writeDataRows ws r rows).cells := by
  induction rows with
  | nil => intro ws r x hx; exact hx
  | cons row rest ih =>
    intro ws r x hx
    exact ih _ _ x (by simp [writeRow, hx])

lemma addTotals_name (ws : WsState) (h : Nat) (t : Tableau) :
    (addTotals ws h t).name = ws.name := by
  unfold addTotals
  by_cases h1 : t.donnees.isEmpty <;> by_cases h2 : (numericCols t).isEmpty <;> simp [h1, h2]

lemma addTotals_merges (ws : WsState) (h : Nat) (t : Tableau) :
    (addTotals ws h t).merges = ws.merges := by
  unfold addTotals
  by_cases h1 : t.donnees.isEmpty <;> by_cases h2 : (numericCols t).isEmpty <;> simp [h1, h2]

lemma addTotals_cells_mem (ws : WsState) (h : Nat) (t : Tableau)
    (x : Nat × Nat × CellVal) (hx : x ∈ ws.cells) : x ∈ (addTotals ws h t).cells := by
  unfold addTotals
  by_cases h1 : t.donnees.isEmpty <;> by_cases h2 : (numericCols t).isEmpty <;>
    simp [h1, h2, hx]

lemma buildSheet_name (i : Nat) (f : Feuille) :
    (buildSheet i f).name = pyTake 31 (f.nom.getD ("Feuille " ++ toString (i + 1))) := by
  unfold buildSheet
  cases hft : f.tableau with
  | none => rfl
  | some t =>
    rw [addTotals_name]
    by_cases hd : t.donnees.isEmpty <;>
      simp [hd, create_excel_table, writeDataRows_name, format_header_row, format_worksheet]

lemma buildSheet_merge (i : Nat) (f : Feuille) : "A1:D1" ∈ (buildSheet i f).merges := by
  unfold buildSheet
  cases hft : f.tableau with
  | none => simp [format_worksheet]
  | some t =>
    rw [addTotals_merges]
    by_cases hd : t.donnees.isEmpty <;>
      simp [hd, create_excel_table, writeDataRows_merges, format_header_row, format_worksheet]

lemma buildSheet_titleCell (i : Nat) (f : Feuille) :
    (1, 1, CellVal.str (f.nom.getD ("Feuille " ++ toString (i + 1)))) ∈
      (buildSheet i f).cells := by
  unfold buildSheet
  cases hft : f.tableau with
  | none => simp [format_worksheet]
  | some t =>
    apply addTotals_cells_mem
    by_cases hd : t.donnees.isEmpty <;>
      simp only [hd, if_true, if_false, Bool.false_eq_true, create_excel_table] <;>
      apply writeDataRows_cells_mem <;>
      simp [format_header_row, format_worksheet]

lemma buildSheets_get (fs : List Feuille) :
    ∀ (i k : Nat) (f : Feuille), fs[i]? = some f →
      (buildSheets k fs)[i]? = some (buildSheet (k + i) f) := by
  induction fs with
  | nil => intro i k f h; simp at h
  | cons g rest ih =>
    intro i k f h
    cases i with
    | zero =>
      simp at h
      subst h
      simp [buildSheets]
    | succ j =>
      simp at h
      have h2 := ih j (k + 1) f h
      have harith : k + 1 + j = k + (j + 1) := by omega
      rw [harith] at h2
      simpa [buildSheets] using h2

/-- C10: the worksheet name actually set for the i-th sheet entry is the
first 31 characters of the requested sheet name (a name of at most 31
characters is used unchanged), while the untruncated name is still written
into the merged A1:D1 title cell. -/
theorem claim_C10 :
    ∀ (fs : List Feuille) (i : Nat) (f : Feuille), fs[i]? = some f →
      ∃ ws, (generate_excel_workbook fs)[i]? = some ws ∧
        ws.name = pyTake 31 (f.nom.getD ("Feuille " ++ toString (i + 1))) ∧
        ((f.nom.getD ("Feuille " ++ toString (i + 1))).data.length ≤ 31 →
          ws.name = f.nom.getD ("Feuille " ++ toString (i + 1))) ∧
        (1, 1, CellVal.str (f.nom.getD ("Feuille " ++ toString (i + 1)))) ∈ ws.cells ∧
        "A1:D1" ∈ ws.merges := by
  intro fs i f h
  have hne : fs.isEmpty = false := by
    cases fs
    · simp at h
    · rfl
  refine ⟨buildSheet i f, ?_, buildSheet_name i f, ?_,
    buildSheet_titleCell i f, buildSheet_merge i f⟩
  · unfold generate_excel_workbook
    rw [hne]
    simpa using buildSheets_get fs i 0 f h
  · intro hlen
    rw [buildSheet_name]
    unfold pyTake
    rw [List.take_of_length_le hlen]

/-- The sheet entry of the C10 witness: a 32-character name. -/
def feuilleW : Feuille :=
  { nom := some "ABCDEFGHIJKLMNOPQRSTUVWXYZ123456", tableau := none }

/-- Witness for C10 at a concrete over-long sheet name. -/
theorem claim_C10_witness :
    ∃ ws, (generate_excel_workbook [feuilleW])[0]? = some ws ∧
      ws.name = pyTake 31 (feuilleW.nom.getD ("Feuille " ++ toString (0 + 1))) ∧
      ((feuilleW.nom.getD ("Feuille " ++ toString (0 + 1))).data.length ≤ 31 →
        ws.name = feuilleW.nom.getD ("Feuille " ++ toString (0 + 1))) ∧
      (1, 1, CellVal.str (feuilleW.nom.getD ("Feuille " ++ toString (0 + 1)))) ∈ ws.cells ∧
      "A1:D1" ∈ ws.merges :=
  claim_C10 [feuilleW] 0 feuilleW rfl
